import Mathlib

/-!
Verification of the turn-taking conversation engine of the
`ai-chatbot-conversation` repository.

The embedding translates `src/chatbot_conversation.py` (the
`ChatbotConversation` engine: `get_chatbot_response`, `run_conversation`,
`save_conversation`, and the role-inversion loop inside `run_conversation`)
and the default-resolution logic of the provider adapters in
`src/providers.py` and `src/chatbot_conversation.py`.

Modelling conventions:
* A chat message `{"role": r, "content": c}` is a `Message` with string
  fields, exactly as the Python dicts store string roles.
* A transcript entry `{"turn": t, "speaker": s, "message": m}` is a
  `TurnRecord`.
* A provider object is modelled by its `get_response` method together with
  explicit private state (Python objects may mutate internal state between
  calls; the engine treats providers opaquely).  A call either returns text
  (`Except.ok`) or raises (`Except.error e`, where `e` stands for `str(e)`
  of the raised exception).
* `time.sleep(delay)` and all `print` calls are real-time / console effects
  with no influence on the returned data; they are not part of the
  embedding.
-/

namespace Chatbot

/-- One entry of the working dialogue: a `{"role": ..., "content": ...}`
dict appended to `messages` in `run_conversation`. -/
structure Message where
  role : String
  content : String
deriving DecidableEq, Repr

/-- One entry of `conversation_log`: a `{"turn": ..., "speaker": ...,
"message": ...}` dict. -/
structure TurnRecord where
  turn : Nat
  speaker : String
  message : String
deriving DecidableEq, Repr

/-- The `get_response` method of a provider object with private state `σ`:
given the current state, the system prompt and the message history it either
returns the response text or raises (the `Except.error` case carries
`str(e)`), and yields the provider's next private state. -/
def GetResponse (σ : Type) : Type :=
  σ → String → List Message → Except String String × σ

/-- `ChatbotConversation.get_chatbot_response` (chatbot_conversation.py,
lines 136-152): call `provider.get_response(system_prompt, messages)`,
catching any exception `e` and turning it into the string
`f"Error getting response from {chatbot_name}: {str(e)}"`. -/
def get_chatbot_response {σ : Type} (get : GetResponse σ) (chatbot_name : String)
    (system_prompt : String) (messages : List Message) (s : σ) : String × σ :=
  match get s system_prompt messages with
  | (Except.ok r, s') => (r, s')
  | (Except.error e, s') => ("Error getting response from " ++ chatbot_name ++ ": " ++ e, s')

/-- The role-inversion loop at chatbot_conversation.py lines 195-201:
`"user" if msg["role"] == "assistant" else "assistant"`, content kept. -/
def reverseRoles (messages : List Message) : List Message :=
  messages.map fun msg =>
    { role := if msg.role = "assistant" then "user" else "assistant",
      content := msg.content }

/-- The engine state mutated by `run_conversation`: the working dialogue
`messages`, the transcript `conversation_log`, and the two providers'
private states. -/
structure EngineState (σ₁ σ₂ : Type) where
  messages : List Message
  log : List TurnRecord
  s1 : σ₁
  s2 : σ₂
deriving DecidableEq, Repr

/-- The "Chatbot 2 responds" half of a loop iteration (chatbot_conversation.py
lines 188-214): build the role-inverted view, call provider 2, append the
response to `messages` with role `"user"` and to the log with speaker
`"Chatbot 2"` and turn `turn + 1`. -/
def chatbot2Step {σ₁ σ₂ : Type} (p2 : GetResponse σ₂) (chatbot2_system : String)
    (turn : Nat) (st : EngineState σ₁ σ₂) : EngineState σ₁ σ₂ :=
  let r := get_chatbot_response p2 "Chatbot 2" chatbot2_system (reverseRoles st.messages) st.s2
  { messages := st.messages ++ [{ role := "user", content := r.1 }],
    log := st.log ++ [{ turn := turn + 1, speaker := "Chatbot 2", message := r.1 }],
    s1 := st.s1,
    s2 := r.2 }

/-- The "Chatbot 1 responds" half of a loop iteration (chatbot_conversation.py
lines 216-234): call provider 1 on the working dialogue as stored, append the
response with role `"assistant"` and to the log with speaker `"Chatbot 1"`
and turn `turn + 1`. -/
def chatbot1Step {σ₁ σ₂ : Type} (p1 : GetResponse σ₁) (chatbot1_system : String)
    (turn : Nat) (st : EngineState σ₁ σ₂) : EngineState σ₁ σ₂ :=
  let r := get_chatbot_response p1 "Chatbot 1" chatbot1_system st.messages st.s1
  { messages := st.messages ++ [{ role := "assistant", content := r.1 }],
    log := st.log ++ [{ turn := turn + 1, speaker := "Chatbot 1", message := r.1 }],
    s1 := r.2,
    s2 := st.s2 }

/-- One iteration of `for turn in range(num_turns)`: Chatbot 2's half, then
Chatbot 1's half. -/
def runTurn {σ₁ σ₂ : Type} (p1 : GetResponse σ₁) (p2 : GetResponse σ₂)
    (chatbot1_system chatbot2_system : String) (turn : Nat)
    (st : EngineState σ₁ σ₂) : EngineState σ₁ σ₂ :=
  chatbot1Step p1 chatbot1_system turn (chatbot2Step p2 chatbot2_system turn st)

/-- The `for turn in range(num_turns)` loop: `turn` is the current loop
index, `fuel` the number of iterations still to run. -/
def runLoop {σ₁ σ₂ : Type} (p1 : GetResponse σ₁) (p2 : GetResponse σ₂)
    (chatbot1_system chatbot2_system : String) :
    Nat → Nat → EngineState σ₁ σ₂ → EngineState σ₁ σ₂
  | _, 0, st => st
  | turn, fuel + 1, st =>
      runLoop p1 p2 chatbot1_system chatbot2_system (turn + 1) fuel
        (runTurn p1 p2 chatbot1_system chatbot2_system turn st)

/-- The engine state right after the seeding at chatbot_conversation.py
lines 179-185: the initial prompt is stored as an `"assistant"` message and
logged as turn 0 with speaker `"Chatbot 1 (Initial)"`, with no provider
call. -/
def seedState {σ₁ σ₂ : Type} (initial_prompt : String) (s1 : σ₁) (s2 : σ₂) :
    EngineState σ₁ σ₂ :=
  { messages := [{ role := "assistant", content := initial_prompt }],
    log := [{ turn := 0, speaker := "Chatbot 1 (Initial)", message := initial_prompt }],
    s1 := s1,
    s2 := s2 }

/-- `ChatbotConversation.run_conversation` (chatbot_conversation.py, lines
154-237), with the two providers' `get_response` methods and initial private
states passed explicitly.  The `delay` and `verbose` parameters only cause
sleeping and printing and are dropped.  Returns `conversation_log`. -/
def run_conversation {σ₁ σ₂ : Type} (p1 : GetResponse σ₁) (p2 : GetResponse σ₂)
    (initial_prompt chatbot1_system chatbot2_system : String) (num_turns : Nat)
    (s1 : σ₁) (s2 : σ₂) : List TurnRecord :=
  (runLoop p1 p2 chatbot1_system chatbot2_system 0 num_turns
    (seedState initial_prompt s1 s2)).log

/-- The trace of engine states of a run: the state at entry of the loop and
the state after every append (each half-step appends exactly one message and
one turn record together).  Mirrors `runLoop` step for step. -/
def engineStates {σ₁ σ₂ : Type} (p1 : GetResponse σ₁) (p2 : GetResponse σ₂)
    (chatbot1_system chatbot2_system : String) :
    Nat → Nat → EngineState σ₁ σ₂ → List (EngineState σ₁ σ₂)
  | _, 0, st => [st]
  | turn, fuel + 1, st =>
      let st2 := chatbot2Step p2 chatbot2_system turn st
      st :: st2 :: engineStates p1 p2 chatbot1_system chatbot2_system (turn + 1) fuel
        (chatbot1Step p1 chatbot1_system turn st2)

/-- A trivial provider used to instantiate theorems on concrete inputs: it
always answers with the fixed text and keeps no state. -/
def constProvider (text : String) : GetResponse Unit :=
  fun s _ _ => (Except.ok text, s)

/-- A provider whose `get_response` raises on every call; `e` is `str(e)` of
the raised exception. -/
def raisingProvider (e : String) : GetResponse Unit :=
  fun s _ _ => (Except.error e, s)

/-- A provider that answers `letter ++ t` where `t` is the number of calls
it has seen so far (including the current one), its private state being its
call count. -/
def countingProvider (letter : String) : GetResponse Nat :=
  fun t _ _ => (Except.ok (letter ++ toString (t + 1)), t + 1)

/-! ### The transcript sink: `save_conversation` -/

/-- The separator `'=' * 80` used by `save_conversation`. -/
def sepLine : String :=
  String.mk (List.replicate 80 '=')

/-- The text written for one log entry by the body of the `for` loop in
`save_conversation` (chatbot_conversation.py, lines 245-249): a blank line,
the separator, a `{speaker} - Turn {turn}` header, the separator again, then
the message. -/
def formatEntry (entry : TurnRecord) : String :=
  "\n" ++ sepLine ++ "\n" ++ entry.speaker ++ " - Turn " ++ toString entry.turn ++ "\n" ++
    sepLine ++ "\n" ++ entry.message ++ "\n"

/-- The full file content produced by `ChatbotConversation.save_conversation`
(chatbot_conversation.py, lines 239-251) for a given conversation history:
the file is opened once in write mode and the loop writes each entry's text
in insertion order. -/
def save_conversation_content (history : List TurnRecord) : String :=
  history.foldl (fun acc entry => acc ++ formatEntry entry) ""

/-- Concatenation of a list of text blocks, in order. -/
def concatBlocks : List String → String
  | [] => ""
  | b :: bs => b ++ concatBlocks bs

/-- Modelled from the spec: the per-record block claimed by the persistence
contract — "one speaker-marker + speaker-name header followed by the message
content, per record" (blank-line separated) — for a given assignment
`markerOf` of speaker markers to speaker names.  No such marker exists in
the code's turn records; this definition exists to be compared with
`formatEntry`. -/
def claimedEntry (markerOf : String → String) (entry : TurnRecord) : String :=
  markerOf entry.speaker ++ (" " ++ entry.speaker ++ "\n" ++ entry.message ++ "\n\n")

/-- Modelled from the spec: the claimed file content, one claimed block per
record in chronological order. -/
def claimedContent (markerOf : String → String) (history : List TurnRecord) : String :=
  concatBlocks (history.map (claimedEntry markerOf))

/-- The second-to-last character of a string, if any. -/
def secondLast (s : String) : Option Char :=
  s.data.reverse[1]?

/-! ### Provider adapters: default resolution for temperature / max tokens

`src/providers.py` resolves the effective sampling parameters of a call
from four sources; `src/chatbot_conversation.py` contains an older copy of
the adapters with plain hardcoded defaults.  Temperatures are modelled as
rationals (the Python floats in play are small decimal literals) and the
environment as the already-parsed optional values of the relevant
variables; an unset variable is `none`. -/

/-- The environment variables consulted by the adapters in
`src/providers.py`, already parsed. -/
structure EnvConfig where
  DEFAULT_TEMPERATURE : Option ℚ
  DEFAULT_MAX_TOKENS : Option Nat
  OPENAI_TEMPERATURE : Option ℚ
  OPENAI_MAX_TOKENS : Option Nat
  ANTHROPIC_TEMPERATURE : Option ℚ
  ANTHROPIC_MAX_TOKENS : Option Nat
  OLLAMA_TEMPERATURE : Option ℚ
  OLLAMA_MAX_TOKENS : Option Nat
  XAI_TEMPERATURE : Option ℚ
  XAI_MAX_TOKENS : Option Nat
  GEMINI_TEMPERATURE : Option ℚ
  GEMINI_MAX_TOKENS : Option Nat
deriving DecidableEq

/-- `ChatProvider.__init__` (providers.py, lines 20-24): process-wide
defaults from `DEFAULT_TEMPERATURE` / `DEFAULT_MAX_TOKENS`, falling back to
the hardcoded `0.7` / `500`. -/
def chatProviderDefaults (env : EnvConfig) : ℚ × Nat :=
  (env.DEFAULT_TEMPERATURE.getD (7 / 10), env.DEFAULT_MAX_TOKENS.getD 500)

/-- `OpenAIProvider.__init__` (providers.py, lines 64-70): the resolved
`default_temperature` / `default_max_tokens` attributes, from the
constructor arguments, else `OPENAI_TEMPERATURE` / `OPENAI_MAX_TOKENS`, else
the base-class defaults. -/
def openAIProviderDefaults (env : EnvConfig) (temperature : Option ℚ)
    (max_tokens : Option Nat) : ℚ × Nat :=
  let base := chatProviderDefaults env
  (match temperature with
   | some t => t
   | none => env.OPENAI_TEMPERATURE.getD base.1,
   match max_tokens with
   | some m => m
   | none => env.OPENAI_MAX_TOKENS.getD base.2)

/-- `AnthropicProvider.__init__` (providers.py, lines 122-128). -/
def anthropicProviderDefaults (env : EnvConfig) (temperature : Option ℚ)
    (max_tokens : Option Nat) : ℚ × Nat :=
  let base := chatProviderDefaults env
  (match temperature with
   | some t => t
   | none => env.ANTHROPIC_TEMPERATURE.getD base.1,
   match max_tokens with
   | some m => m
   | none => env.ANTHROPIC_MAX_TOKENS.getD base.2)

/-- `OllamaProvider.__init__` (providers.py, lines 182-188). -/
def ollamaProviderDefaults (env : EnvConfig) (temperature : Option ℚ)
    (max_tokens : Option Nat) : ℚ × Nat :=
  let base := chatProviderDefaults env
  (match temperature with
   | some t => t
   | none => env.OLLAMA_TEMPERATURE.getD base.1,
   match max_tokens with
   | some m => m
   | none => env.OLLAMA_MAX_TOKENS.getD base.2)

/-- `xAIGrokProvider.__init__` (providers.py, lines 254-260). -/
def xaiGrokProviderDefaults (env : EnvConfig) (temperature : Option ℚ)
    (max_tokens : Option Nat) : ℚ × Nat :=
  let base := chatProviderDefaults env
  (match temperature with
   | some t => t
   | none => env.XAI_TEMPERATURE.getD base.1,
   match max_tokens with
   | some m => m
   | none => env.XAI_MAX_TOKENS.getD base.2)

/-- `GoogleProvider.__init__` (providers.py, lines 310-316). -/
def googleProviderDefaults (env : EnvConfig) (temperature : Option ℚ)
    (max_tokens : Option Nat) : ℚ × Nat :=
  let base := chatProviderDefaults env
  (match temperature with
   | some t => t
   | none => env.GEMINI_TEMPERATURE.getD base.1,
   match max_tokens with
   | some m => m
   | none => env.GEMINI_MAX_TOKENS.getD base.2)

/-- The per-call resolution shared by every `get_response` in providers.py
(e.g. lines 76-79): a per-call argument wins, otherwise the adapter's
resolved defaults. -/
def getResponseResolve (defaults : ℚ × Nat) (temperature : Option ℚ)
    (max_tokens : Option Nat) : ℚ × Nat :=
  (temperature.getD defaults.1, max_tokens.getD defaults.2)

/-- Effective parameters of one `OpenAIProvider` call in providers.py, as a
function of environment, constructor arguments and call arguments. -/
def openAIEffective (env : EnvConfig) (ctorT : Option ℚ) (ctorM : Option Nat)
    (callT : Option ℚ) (callM : Option Nat) : ℚ × Nat :=
  getResponseResolve (openAIProviderDefaults env ctorT ctorM) callT callM

/-- Effective parameters of one `AnthropicProvider` call in providers.py. -/
def anthropicEffective (env : EnvConfig) (ctorT : Option ℚ) (ctorM : Option Nat)
    (callT : Option ℚ) (callM : Option Nat) : ℚ × Nat :=
  getResponseResolve (anthropicProviderDefaults env ctorT ctorM) callT callM

/-- Effective parameters of one `OllamaProvider` call in providers.py. -/
def ollamaEffective (env : EnvConfig) (ctorT : Option ℚ) (ctorM : Option Nat)
    (callT : Option ℚ) (callM : Option Nat) : ℚ × Nat :=
  getResponseResolve (ollamaProviderDefaults env ctorT ctorM) callT callM

/-- Effective parameters of one `xAIGrokProvider` call in providers.py. -/
def xaiGrokEffective (env : EnvConfig) (ctorT : Option ℚ) (ctorM : Option Nat)
    (callT : Option ℚ) (callM : Option Nat) : ℚ × Nat :=
  getResponseResolve (xaiGrokProviderDefaults env ctorT ctorM) callT callM

/-- Effective parameters of one `GoogleProvider` call in providers.py. -/
def googleEffective (env : EnvConfig) (ctorT : Option ℚ) (ctorM : Option Nat)
    (callT : Option ℚ) (callM : Option Nat) : ℚ × Nat :=
  getResponseResolve (googleProviderDefaults env ctorT ctorM) callT callM

/-- Effective parameters of one call of the adapters defined in
`src/chatbot_conversation.py` (e.g. `OpenAIProvider.get_response`, lines
38-46 there): the Python signature is
`get_response(self, system_prompt, messages, temperature=0.7, max_tokens=500)`,
so an omitted per-call argument always resolves to the hardcoded `0.7` /
`500` — no environment variable and no constructor configuration is
consulted. -/
def legacyGetResponseResolve (temperature : Option ℚ) (max_tokens : Option Nat) : ℚ × Nat :=
  (temperature.getD (7 / 10), max_tokens.getD 500)

/-- The precedence chain stated by the spec's adapter contract: explicit
per-call argument, else adapter-specific configuration, else the
process-wide default, else the hardcoded fallback. -/
def claimedResolve {α : Type} (perCall adapterCfg processDefault : Option α)
    (fallback : α) : α :=
  perCall.getD (adapterCfg.getD (processDefault.getD fallback))

/-- An environment in which only the process-wide `DEFAULT_TEMPERATURE` is
set (to `0.9`). -/
def envProcessOnly : EnvConfig :=
  ⟨some (9 / 10), none, none, none, none, none, none, none, none, none, none, none⟩

/-! ### Basic lemmas about the two half-steps and the loop -/

theorem chatbot2Step_messages {σ₁ σ₂ : Type} (p2 : GetResponse σ₂) (sys2 : String)
    (turn : Nat) (st : EngineState σ₁ σ₂) :
    (chatbot2Step p2 sys2 turn st).messages =
      st.messages ++
        [⟨"user", (get_chatbot_response p2 "Chatbot 2" sys2 (reverseRoles st.messages) st.s2).1⟩] :=
  rfl

theorem chatbot2Step_log {σ₁ σ₂ : Type} (p2 : GetResponse σ₂) (sys2 : String)
    (turn : Nat) (st : EngineState σ₁ σ₂) :
    (chatbot2Step p2 sys2 turn st).log =
      st.log ++ [⟨turn + 1, "Chatbot 2",
        (get_chatbot_response p2 "Chatbot 2" sys2 (reverseRoles st.messages) st.s2).1⟩] :=
  rfl

theorem chatbot1Step_messages {σ₁ σ₂ : Type} (p1 : GetResponse σ₁) (sys1 : String)
    (turn : Nat) (st : EngineState σ₁ σ₂) :
    (chatbot1Step p1 sys1 turn st).messages =
      st.messages ++
        [⟨"assistant", (get_chatbot_response p1 "Chatbot 1" sys1 st.messages st.s1).1⟩] :=
  rfl

theorem chatbot1Step_log {σ₁ σ₂ : Type} (p1 : GetResponse σ₁) (sys1 : String)
    (turn : Nat) (st : EngineState σ₁ σ₂) :
    (chatbot1Step p1 sys1 turn st).log =
      st.log ++ [⟨turn + 1, "Chatbot 1",
        (get_chatbot_response p1 "Chatbot 1" sys1 st.messages st.s1).1⟩] :=
  rfl

theorem runTurn_log_length {σ₁ σ₂ : Type} (p1 : GetResponse σ₁) (p2 : GetResponse σ₂)
    (sys1 sys2 : String) (turn : Nat) (st : EngineState σ₁ σ₂) :
    (runTurn p1 p2 sys1 sys2 turn st).log.length = st.log.length + 2 := by
  simp [runTurn, chatbot1Step_log, chatbot2Step_log]

/-- Each loop iteration appends exactly two records to the log. -/
theorem runLoop_log_length {σ₁ σ₂ : Type} (p1 : GetResponse σ₁) (p2 : GetResponse σ₂)
    (sys1 sys2 : String) :
    ∀ (fuel turn : Nat) (st : EngineState σ₁ σ₂),
      (runLoop p1 p2 sys1 sys2 turn fuel st).log.length = st.log.length + 2 * fuel
  | 0, _, _ => by simp [runLoop]
  | fuel + 1, turn, st => by
      rw [runLoop, runLoop_log_length p1 p2 sys1 sys2 fuel (turn + 1)
        (runTurn p1 p2 sys1 sys2 turn st), runTurn_log_length]
      omega

/-- The loop only ever appends to the log. -/
theorem runLoop_log_extend {σ₁ σ₂ : Type} (p1 : GetResponse σ₁) (p2 : GetResponse σ₂)
    (sys1 sys2 : String) :
    ∀ (fuel turn : Nat) (st : EngineState σ₁ σ₂),
      ∃ t, (runLoop p1 p2 sys1 sys2 turn fuel st).log = st.log ++ t
  | 0, _, st => ⟨[], by simp [runLoop]⟩
  | fuel + 1, turn, st => by
      obtain ⟨t, ht⟩ := runLoop_log_extend p1 p2 sys1 sys2 fuel (turn + 1)
        (runTurn p1 p2 sys1 sys2 turn st)
      rw [runLoop, ht, runTurn, chatbot1Step_log, chatbot2Step_log, List.append_assoc,
        List.append_assoc]
      exact ⟨_, rfl⟩

theorem getElem?_append_add {α : Type} (l u : List α) (i : Nat) :
    (l ++ u)[l.length + i]? = u[i]? := by
  rw [List.getElem?_append_right (by omega)]
  congr 1
  omega

/-- Shape of the records appended by the loop: for every `k < fuel`, the
records at offsets `2 * k` and `2 * k + 1` past the incoming log carry turn
index `turn + k + 1` and speakers `"Chatbot 2"` and `"Chatbot 1"`
respectively. -/
theorem runLoop_log_shape {σ₁ σ₂ : Type} (p1 : GetResponse σ₁) (p2 : GetResponse σ₂)
    (sys1 sys2 : String) :
    ∀ (fuel turn : Nat) (st : EngineState σ₁ σ₂) (k : Nat), k < fuel →
      ((runLoop p1 p2 sys1 sys2 turn fuel st).log[st.log.length + 2 * k]?).map
          (fun r => (r.turn, r.speaker)) = some (turn + k + 1, "Chatbot 2") ∧
      ((runLoop p1 p2 sys1 sys2 turn fuel st).log[st.log.length + (2 * k + 1)]?).map
          (fun r => (r.turn, r.speaker)) = some (turn + k + 1, "Chatbot 1")
  | 0, _, _, _, hk => absurd hk (Nat.not_lt_zero _)
  | fuel + 1, turn, st, 0, _ => by
      obtain ⟨t, ht⟩ := runLoop_log_extend p1 p2 sys1 sys2 fuel (turn + 1)
        (runTurn p1 p2 sys1 sys2 turn st)
      rw [runLoop, ht, runTurn, chatbot1Step_log, chatbot2Step_log, List.append_assoc,
        List.append_assoc]
      constructor
      · rw [Nat.mul_zero, getElem?_append_add]
        rfl
      · rw [Nat.mul_zero, getElem?_append_add]
        simp
  | fuel + 1, turn, st, k + 1, hk => by
      have h := runLoop_log_shape p1 p2 sys1 sys2 fuel (turn + 1)
        (runTurn p1 p2 sys1 sys2 turn st) k (by omega)
      rw [runLoop]
      have hlen : (runTurn p1 p2 sys1 sys2 turn st).log.length = st.log.length + 2 :=
        runTurn_log_length p1 p2 sys1 sys2 turn st
      have h1 : st.log.length + 2 * (k + 1) =
          (runTurn p1 p2 sys1 sys2 turn st).log.length + 2 * k := by omega
      have h2 : st.log.length + (2 * (k + 1) + 1) =
          (runTurn p1 p2 sys1 sys2 turn st).log.length + (2 * k + 1) := by omega
      rw [h1, h2]
      have harith : turn + 1 + k + 1 = turn + (k + 1) + 1 := by omega
      rw [harith] at h
      exact h

theorem run_conversation_length_aux {σ₁ σ₂ : Type} (p1 : GetResponse σ₁) (p2 : GetResponse σ₂)
    (initial_prompt sys1 sys2 : String) (num_turns : Nat) (s1 : σ₁) (s2 : σ₂) :
    (run_conversation p1 p2 initial_prompt sys1 sys2 num_turns s1 s2).length =
      2 * num_turns + 1 := by
  rw [run_conversation, runLoop_log_length]
  simp [seedState]
  omega

theorem run_conversation_seed_aux {σ₁ σ₂ : Type} (p1 : GetResponse σ₁) (p2 : GetResponse σ₂)
    (initial_prompt sys1 sys2 : String) (num_turns : Nat) (s1 : σ₁) (s2 : σ₂) :
    (run_conversation p1 p2 initial_prompt sys1 sys2 num_turns s1 s2)[0]? =
      some ⟨0, "Chatbot 1 (Initial)", initial_prompt⟩ := by
  obtain ⟨t, ht⟩ := runLoop_log_extend p1 p2 sys1 sys2 num_turns 0
    (seedState initial_prompt s1 s2)
  rw [run_conversation, ht]
  simp [seedState]

/-! ### C1: the returned sequence has exactly `2 * num_turns + 1` entries -/

/-- C1: for every `num_turns = n ≥ 0` and every pair of providers,
`run_conversation` returns a turn-record list of exactly `2 * n + 1`
entries. -/
theorem run_conversation_length {σ₁ σ₂ : Type} (p1 : GetResponse σ₁) (p2 : GetResponse σ₂)
    (initial_prompt sys1 sys2 : String) (num_turns : Nat) (s1 : σ₁) (s2 : σ₂) :
    (run_conversation p1 p2 initial_prompt sys1 sys2 num_turns s1 s2).length =
      2 * num_turns + 1 :=
  run_conversation_length_aux p1 p2 initial_prompt sys1 sys2 num_turns s1 s2

/-! ### C3: the seed record -/

/-- C3: for every initial prompt and every pair of providers, entry 0 of the
returned log carries turn index `0`, the speaker identifying participant 1
(`"Chatbot 1 (Initial)"`), and exactly the initial prompt; it is the same
whatever the providers do, i.e. no adapter call produces it. -/
theorem run_conversation_seed {σ₁ σ₂ : Type} (p1 : GetResponse σ₁) (p2 : GetResponse σ₂)
    (initial_prompt sys1 sys2 : String) (num_turns : Nat) (s1 : σ₁) (s2 : σ₂) :
    (run_conversation p1 p2 initial_prompt sys1 sys2 num_turns s1 s2)[0]? =
      some ⟨0, "Chatbot 1 (Initial)", initial_prompt⟩ :=
  run_conversation_seed_aux p1 p2 initial_prompt sys1 sys2 num_turns s1 s2

/-- Helper: turn index and speaker of the two records of repetition `k`
(0-based) of a run. -/
theorem run_conversation_shape {σ₁ σ₂ : Type} (p1 : GetResponse σ₁) (p2 : GetResponse σ₂)
    (initial_prompt sys1 sys2 : String) (num_turns : Nat) (s1 : σ₁) (s2 : σ₂)
    (k : Nat) (hk : k < num_turns) :
    ((run_conversation p1 p2 initial_prompt sys1 sys2 num_turns s1 s2)[2 * k + 1]?).map
        (fun r => (r.turn, r.speaker)) = some (k + 1, "Chatbot 2") ∧
    ((run_conversation p1 p2 initial_prompt sys1 sys2 num_turns s1 s2)[2 * k + 2]?).map
        (fun r => (r.turn, r.speaker)) = some (k + 1, "Chatbot 1") := by
  have h := runLoop_log_shape p1 p2 sys1 sys2 num_turns 0 (seedState initial_prompt s1 s2) k hk
  have hseed : (seedState initial_prompt s1 s2 : EngineState σ₁ σ₂).log.length = 1 := rfl
  rw [hseed, Nat.zero_add] at h
  have e1 : 2 * k + 1 = 1 + 2 * k := by omega
  have e2 : 2 * k + 2 = 1 + (2 * k + 1) := by omega
  rw [run_conversation, e1, e2]
  exact h

/-! ### C10: both records of repetition `k` carry turn value `k + 1` -/

/-- C10: turn indices in the returned log are not unique per record: for
every repetition `k < num_turns` the records at positions `2k + 1` (speaker
`"Chatbot 2"`) and `2k + 2` (speaker `"Chatbot 1"`) both carry turn value
`k + 1`, while the record at position `0` carries turn `0` and no other
record does. -/
theorem run_conversation_turn_values {σ₁ σ₂ : Type} (p1 : GetResponse σ₁) (p2 : GetResponse σ₂)
    (initial_prompt sys1 sys2 : String) (num_turns : Nat) (s1 : σ₁) (s2 : σ₂)
    (k : Nat) (hk : k < num_turns) :
    ((run_conversation p1 p2 initial_prompt sys1 sys2 num_turns s1 s2)[2 * k + 1]?).map
        (fun r => (r.turn, r.speaker)) = some (k + 1, "Chatbot 2") ∧
    ((run_conversation p1 p2 initial_prompt sys1 sys2 num_turns s1 s2)[2 * k + 2]?).map
        (fun r => (r.turn, r.speaker)) = some (k + 1, "Chatbot 1") ∧
    ((run_conversation p1 p2 initial_prompt sys1 sys2 num_turns s1 s2)[0]?).map
        (fun r => r.turn) = some 0 ∧
    ∀ j r, (run_conversation p1 p2 initial_prompt sys1 sys2 num_turns s1 s2)[j]? = some r →
      r.turn = 0 → j = 0 := by
  obtain ⟨h1, h2⟩ :=
    run_conversation_shape p1 p2 initial_prompt sys1 sys2 num_turns s1 s2 k hk
  refine ⟨h1, h2, ?_, ?_⟩
  · rw [run_conversation_seed_aux]
    rfl
  · intro j r hj hturn
    by_contra hj0
    have hlen := run_conversation_length_aux p1 p2 initial_prompt sys1 sys2 num_turns s1 s2
    have hjlt : j < 2 * num_turns + 1 := by
      by_contra hge
      rw [List.getElem?_eq_none (by omega)] at hj
      exact Option.noConfusion hj
    rcases Nat.even_or_odd (j - 1) with ⟨m, hm⟩ | ⟨m, hm⟩
    · have hj' : j = 2 * m + 1 := by omega
      have hmlt : m < num_turns := by omega
      obtain ⟨hs, _⟩ :=
        run_conversation_shape p1 p2 initial_prompt sys1 sys2 num_turns s1 s2 m hmlt
      rw [← hj', hj] at hs
      have : r.turn = m + 1 := congrArg Prod.fst (Option.some.inj hs)
      omega
    · have hj' : j = 2 * m + 2 := by omega
      have hmlt : m < num_turns := by omega
      obtain ⟨_, hs⟩ :=
        run_conversation_shape p1 p2 initial_prompt sys1 sys2 num_turns s1 s2 m hmlt
      rw [← hj', hj] at hs
      have : r.turn = m + 1 := congrArg Prod.fst (Option.some.inj hs)
      omega

/-- With both providers raising on every call, everything the loop appends
to the log is one of the two standardized error strings. -/
theorem runLoop_raising_shaped (e sys1 sys2 : String) :
    ∀ (fuel turn : Nat) (st : EngineState Unit Unit),
      ∀ r ∈ ((runLoop (raisingProvider e) (raisingProvider e) sys1 sys2 turn fuel
          st).log.drop st.log.length),
        r.message = "Error getting response from Chatbot 2: " ++ e ∨
        r.message = "Error getting response from Chatbot 1: " ++ e
  | 0, _, st => by
      intro r hr
      rw [runLoop, List.drop_length] at hr
      exact absurd hr (List.not_mem_nil r)
  | fuel + 1, turn, st => by
      intro r hr
      obtain ⟨t, ht⟩ := runLoop_log_extend (raisingProvider e) (raisingProvider e) sys1 sys2
        fuel (turn + 1) (runTurn (raisingProvider e) (raisingProvider e) sys1 sys2 turn st)
      rw [runLoop, ht, runTurn, chatbot1Step_log, chatbot2Step_log, List.append_assoc,
        List.append_assoc, List.drop_left'] at hr
      · rcases List.mem_append.1 hr with h2 | hr
        · rw [List.mem_singleton.1 h2]
          left
          rfl
        rcases List.mem_append.1 hr with h1 | hrt
        · rw [List.mem_singleton.1 h1]
          right
          rfl
        · refine runLoop_raising_shaped e sys1 sys2 fuel (turn + 1)
            (runTurn (raisingProvider e) (raisingProvider e) sys1 sys2 turn st) r ?_
          rw [ht, List.drop_left]
          exact hrt
      · rfl

/-! ### C4: adapter failures become inline error records, no early abort -/

/-- C4: with an adapter that raises with message `e` on every call used for
both participants, the run still returns `2 * num_turns + 1` records, and
every record after the seed carries one of the engine's standardized error
strings `"Error getting response from Chatbot 2: " ++ e` /
`"... Chatbot 1: " ++ e`. -/
theorem run_conversation_raising (num_turns : Nat) (e initial_prompt sys1 sys2 : String)
    (r : TurnRecord)
    (hr : r ∈ (run_conversation (raisingProvider e) (raisingProvider e) initial_prompt
      sys1 sys2 num_turns () ()).tail) :
    (run_conversation (raisingProvider e) (raisingProvider e) initial_prompt sys1 sys2
        num_turns () ()).length = 2 * num_turns + 1 ∧
    (r.message = "Error getting response from Chatbot 2: " ++ e ∨
     r.message = "Error getting response from Chatbot 1: " ++ e) := by
  refine ⟨run_conversation_length_aux _ _ _ _ _ _ _ _, ?_⟩
  refine runLoop_raising_shaped e sys1 sys2 num_turns 0 (seedState initial_prompt () ()) r ?_
  have hseed : (seedState initial_prompt () () : EngineState Unit Unit).log.length = 1 := rfl
  rw [hseed, List.drop_one]
  exact hr

/-- Witness for C4 at `num_turns = 1`, `e = "boom"`, checking the record at
position 1 of the log. -/
theorem run_conversation_raising_witness :
    (run_conversation (raisingProvider "boom") (raisingProvider "boom") "hi" "p" "q"
        1 () ()).length = 2 * 1 + 1 ∧
    ((⟨1, "Chatbot 2", "Error getting response from Chatbot 2: boom"⟩ :
        TurnRecord).message = "Error getting response from Chatbot 2: " ++ "boom" ∨
     (⟨1, "Chatbot 2", "Error getting response from Chatbot 2: boom"⟩ :
        TurnRecord).message = "Error getting response from Chatbot 1: " ++ "boom") :=
  run_conversation_raising 1 "boom" "hi" "p" "q"
    ⟨1, "Chatbot 2", "Error getting response from Chatbot 2: boom"⟩ (by decide)

/-- Witness for C10 at `num_turns = 1`, `k = 0`, with concrete providers. -/
theorem run_conversation_turn_values_witness :
    ((run_conversation (constProvider "x") (constProvider "y") "hi" "p" "q" 1 () ())[2 * 0 + 1]?).map
        (fun r => (r.turn, r.speaker)) = some (0 + 1, "Chatbot 2") ∧
    ((run_conversation (constProvider "x") (constProvider "y") "hi" "p" "q" 1 () ())[2 * 0 + 2]?).map
        (fun r => (r.turn, r.speaker)) = some (0 + 1, "Chatbot 1") ∧
    ((run_conversation (constProvider "x") (constProvider "y") "hi" "p" "q" 1 () ())[0]?).map
        (fun r => r.turn) = some 0 ∧
    ∀ j r, (run_conversation (constProvider "x") (constProvider "y") "hi" "p" "q" 1 () ())[j]? =
      some r → r.turn = 0 → j = 0 :=
  run_conversation_turn_values (constProvider "x") (constProvider "y") "hi" "p" "q" 1 () () 0
    (by decide)

/-! ### The run trace: invariants over every intermediate engine state -/

/-- Any property preserved by both half-steps holds at every state of the
run trace once it holds at the start. -/
theorem engineStates_invariant {σ₁ σ₂ : Type} (p1 : GetResponse σ₁) (p2 : GetResponse σ₂)
    (sys1 sys2 : String) (P : EngineState σ₁ σ₂ → Prop)
    (h2 : ∀ turn st, P st → P (chatbot2Step p2 sys2 turn st))
    (h1 : ∀ turn st, P st → P (chatbot1Step p1 sys1 turn st)) :
    ∀ (fuel turn : Nat) (st : EngineState σ₁ σ₂), P st →
      ∀ x ∈ engineStates p1 p2 sys1 sys2 turn fuel st, P x
  | 0, _, st, hP, x, hx => by
      rw [engineStates, List.mem_singleton] at hx
      exact hx ▸ hP
  | fuel + 1, turn, st, hP, x, hx => by
      rw [engineStates] at hx
      rcases List.mem_cons.1 hx with rfl | hx
      · exact hP
      rcases List.mem_cons.1 hx with rfl | hx
      · exact h2 _ _ hP
      · exact engineStates_invariant p1 p2 sys1 sys2 P h2 h1 fuel (turn + 1) _
          (h1 _ _ (h2 _ _ hP)) x hx

/-- The loop's final state is the last state of the trace: the trace is an
instrumented view of the same computation. -/
theorem engineStates_getLast {σ₁ σ₂ : Type} (p1 : GetResponse σ₁) (p2 : GetResponse σ₂)
    (sys1 sys2 : String) :
    ∀ (fuel turn : Nat) (st : EngineState σ₁ σ₂),
      (engineStates p1 p2 sys1 sys2 turn fuel st).getLast? =
        some (runLoop p1 p2 sys1 sys2 turn fuel st)
  | 0, _, st => rfl
  | fuel + 1, turn, st => by
      rw [engineStates, runLoop, List.getLast?_cons_cons, List.getLast?_cons,
        engineStates_getLast p1 p2 sys1 sys2 fuel (turn + 1) _]
      rfl

/-- Every message the engine ever stores carries one of the two role tags. -/
theorem engineStates_roles {σ₁ σ₂ : Type} (p1 : GetResponse σ₁) (p2 : GetResponse σ₂)
    (initial_prompt sys1 sys2 : String) (num_turns : Nat) (s1 : σ₁) (s2 : σ₂) :
    ∀ st ∈ engineStates p1 p2 sys1 sys2 0 num_turns (seedState initial_prompt s1 s2),
      ∀ m ∈ st.messages, m.role = "assistant" ∨ m.role = "user" := by
  refine engineStates_invariant p1 p2 sys1 sys2
    (fun st => ∀ m ∈ st.messages, m.role = "assistant" ∨ m.role = "user") ?_ ?_ num_turns 0
    (seedState initial_prompt s1 s2) ?_
  · intro turn st hst m hm
    rw [chatbot2Step_messages] at hm
    rcases List.mem_append.1 hm with hm | hm
    · exact hst m hm
    · right
      rw [List.mem_singleton.1 hm]
  · intro turn st hst m hm
    rw [chatbot1Step_messages] at hm
    rcases List.mem_append.1 hm with hm | hm
    · exact hst m hm
    · left
      rw [List.mem_singleton.1 hm]
  · intro m hm
    left
    rw [List.mem_singleton.1 hm]

/-! ### C9: only the two role values ever appear in the working dialogue -/

/-- C9: throughout every run, each stored message carries one of exactly the
two role values `"assistant"` (the seed and every Chatbot 1 response) and
`"user"` (every Chatbot 2 response); moreover the inversion maps any role
other than `"assistant"` to `"assistant"`, so on the stored dialogue it only
ever operates on the two values. -/
theorem run_roles_two_valued {σ₁ σ₂ : Type} (p1 : GetResponse σ₁) (p2 : GetResponse σ₂)
    (initial_prompt sys1 sys2 : String) (num_turns : Nat) (s1 : σ₁) (s2 : σ₂)
    (st : EngineState σ₁ σ₂)
    (hst : st ∈ engineStates p1 p2 sys1 sys2 0 num_turns (seedState initial_prompt s1 s2)) :
    (∀ m ∈ st.messages, m.role = "assistant" ∨ m.role = "user") ∧
    (seedState initial_prompt s1 s2 : EngineState σ₁ σ₂).messages.map Message.role =
      ["assistant"] ∧
    (∀ (turn : Nat) (st' : EngineState σ₁ σ₂),
      (chatbot2Step p2 sys2 turn st').messages.map Message.role =
        st'.messages.map Message.role ++ ["user"] ∧
      (chatbot1Step p1 sys1 turn st').messages.map Message.role =
        st'.messages.map Message.role ++ ["assistant"]) ∧
    (∀ m : Message, m.role ≠ "assistant" → reverseRoles [m] = [⟨"assistant", m.content⟩]) := by
  refine ⟨engineStates_roles p1 p2 initial_prompt sys1 sys2 num_turns s1 s2 st hst, rfl,
    ?_, ?_⟩
  · intro turn st'
    constructor
    · rw [chatbot2Step_messages, List.map_append]
      rfl
    · rw [chatbot1Step_messages, List.map_append]
      rfl
  · intro m hm
    simp [reverseRoles, if_neg hm]

/-- Witness for C9: the state reached after the first Chatbot 2 half-step of
a concrete one-turn run. -/
theorem run_roles_two_valued_witness :
    (∀ m ∈ (chatbot2Step (constProvider "y") "q" 0
        (seedState "hi" () () : EngineState Unit Unit)).messages,
      m.role = "assistant" ∨ m.role = "user") ∧
    (seedState "hi" () () : EngineState Unit Unit).messages.map Message.role =
      ["assistant"] ∧
    (∀ (turn : Nat) (st' : EngineState Unit Unit),
      (chatbot2Step (constProvider "y") "q" turn st').messages.map Message.role =
        st'.messages.map Message.role ++ ["user"] ∧
      (chatbot1Step (constProvider "x") "p" turn st').messages.map Message.role =
        st'.messages.map Message.role ++ ["assistant"]) ∧
    (∀ m : Message, m.role ≠ "assistant" → reverseRoles [m] = [⟨"assistant", m.content⟩]) :=
  run_roles_two_valued (constProvider "x") (constProvider "y") "hi" "p" "q" 1 () ()
    (chatbot2Step (constProvider "y") "q" 0 (seedState "hi" () ())) (by decide)

/-! ### C5: role inversion is an involution on every working dialogue -/

/-- Double inversion is the identity on any message list whose roles all lie
in the two-valued set. -/
theorem reverseRoles_reverseRoles : ∀ (l : List Message),
    (∀ m ∈ l, m.role = "assistant" ∨ m.role = "user") →
    reverseRoles (reverseRoles l) = l
  | [], _ => rfl
  | ⟨r, c⟩ :: l, h => by
      have hm := h ⟨r, c⟩ (List.mem_cons_self _ _)
      have hl : ∀ x ∈ l, x.role = "assistant" ∨ x.role = "user" :=
        fun x hx => h x (List.mem_cons_of_mem _ hx)
      have ih := reverseRoles_reverseRoles l hl
      rcases hm with hm | hm
      · have : r = "assistant" := hm
        subst this
        simp only [reverseRoles, List.map_cons] at ih ⊢
        rw [ih]
        norm_num
      · have : r = "user" := hm
        subst this
        simp only [reverseRoles, List.map_cons] at ih ⊢
        rw [ih]
        norm_num

/-- C5: for every working dialogue arising during a run (any state of the
run trace), applying the role-inversion projection twice reproduces the
stored message sequence. -/
theorem run_reverseRoles_involutive {σ₁ σ₂ : Type} (p1 : GetResponse σ₁) (p2 : GetResponse σ₂)
    (initial_prompt sys1 sys2 : String) (num_turns : Nat) (s1 : σ₁) (s2 : σ₂)
    (st : EngineState σ₁ σ₂)
    (hst : st ∈ engineStates p1 p2 sys1 sys2 0 num_turns (seedState initial_prompt s1 s2)) :
    reverseRoles (reverseRoles st.messages) = st.messages :=
  reverseRoles_reverseRoles st.messages
    (engineStates_roles p1 p2 initial_prompt sys1 sys2 num_turns s1 s2 st hst)

/-- Witness for C5: the state reached after the first Chatbot 2 half-step of
a concrete one-turn run. -/
theorem run_reverseRoles_involutive_witness :
    reverseRoles (reverseRoles (chatbot2Step (constProvider "y") "q" 0
        (seedState "hi" () () : EngineState Unit Unit)).messages) =
      (chatbot2Step (constProvider "y") "q" 0
        (seedState "hi" () () : EngineState Unit Unit)).messages :=
  run_reverseRoles_involutive (constProvider "x") (constProvider "y") "hi" "p" "q" 1 () ()
    (chatbot2Step (constProvider "y") "q" 0 (seedState "hi" () ())) (by decide)

/-! ### C6: dialogue state and log always agree on message count -/

/-- C6: at every point during a run — after the seed is recorded and after
each subsequent append — the working dialogue and the turn-record log have
the same number of entries (each contains the seed, so the counts of
non-seed entries agree as well). -/
theorem run_counts_agree {σ₁ σ₂ : Type} (p1 : GetResponse σ₁) (p2 : GetResponse σ₂)
    (initial_prompt sys1 sys2 : String) (num_turns : Nat) (s1 : σ₁) (s2 : σ₂)
    (st : EngineState σ₁ σ₂)
    (hst : st ∈ engineStates p1 p2 sys1 sys2 0 num_turns (seedState initial_prompt s1 s2)) :
    st.messages.length = st.log.length := by
  refine engineStates_invariant p1 p2 sys1 sys2
    (fun st => st.messages.length = st.log.length) ?_ ?_ num_turns 0
    (seedState initial_prompt s1 s2) rfl st hst
  · intro turn st hst
    rw [chatbot2Step_messages, chatbot2Step_log]
    simp [hst]
  · intro turn st hst
    rw [chatbot1Step_messages, chatbot1Step_log]
    simp [hst]

/-- Witness for C6: the state reached after the first Chatbot 2 half-step of
a concrete one-turn run. -/
theorem run_counts_agree_witness :
    (chatbot2Step (constProvider "y") "q" 0
        (seedState "hi" () () : EngineState Unit Unit)).messages.length =
      (chatbot2Step (constProvider "y") "q" 0
        (seedState "hi" () () : EngineState Unit Unit)).log.length :=
  run_counts_agree (constProvider "x") (constProvider "y") "hi" "p" "q" 1 () ()
    (chatbot2Step (constProvider "y") "q" 0 (seedState "hi" () ())) (by decide)

/-! ### C2: the fixed per-repetition order and the counting scenario -/

/-- C2: each repetition appends exactly two records in fixed order — first
Chatbot 2's response obtained on the role-inverted view of the whole current
dialogue, then Chatbot 1's response obtained on the un-inverted dialogue
extended with Chatbot 2's reply — and in particular the counting scenario
with `num_turns = 2` yields seed, `"B1"`, `"A1"`, `"B2"`, `"A2"`, speakers
alternating Chatbot 2 / Chatbot 1 from record 1 on. -/
theorem run_conversation_scenario (initial_prompt sys1 sys2 : String) :
    run_conversation (countingProvider "A") (countingProvider "B") initial_prompt sys1 sys2
        2 0 0 =
      [⟨0, "Chatbot 1 (Initial)", initial_prompt⟩,
       ⟨1, "Chatbot 2", "B1"⟩, ⟨1, "Chatbot 1", "A1"⟩,
       ⟨2, "Chatbot 2", "B2"⟩, ⟨2, "Chatbot 1", "A2"⟩] ∧
    ∀ (σ₁ σ₂ : Type) (p1 : GetResponse σ₁) (p2 : GetResponse σ₂) (s1 s2 : String)
      (turn : Nat) (st : EngineState σ₁ σ₂),
      (runTurn p1 p2 s1 s2 turn st).log = st.log ++
        [⟨turn + 1, "Chatbot 2",
          (get_chatbot_response p2 "Chatbot 2" s2 (reverseRoles st.messages) st.s2).1⟩,
         ⟨turn + 1, "Chatbot 1",
          (get_chatbot_response p1 "Chatbot 1" s1
            (st.messages ++ [⟨"user",
              (get_chatbot_response p2 "Chatbot 2" s2 (reverseRoles st.messages) st.s2).1⟩])
            st.s1).1⟩] := by
  constructor
  · simp [run_conversation, runLoop, runTurn, chatbot1Step, chatbot2Step, seedState,
      get_chatbot_response, countingProvider, reverseRoles]
    exact ⟨rfl, rfl, rfl, rfl⟩
  · intro σ₁ σ₂ p1 p2 s1 s2 turn st
    rw [runTurn, chatbot1Step_log, chatbot2Step_log, List.append_assoc]
    rfl

/-! ### C7: default resolution precedence of the adapters -/

/-- C7 counterexample: with only the process-wide `DEFAULT_TEMPERATURE`
set (to `0.9`) and nothing passed per call or at construction, the
providers.py `OpenAIProvider` resolves `0.9` while the
chatbot_conversation.py adapter resolves the hardcoded `0.7`: the adapter
variants do not resolve identically, and the legacy adapter does not follow
the claimed precedence chain. -/
theorem adapter_precedence_counterexample :
    openAIEffective envProcessOnly none none none none ≠ legacyGetResponseResolve none none ∧
    legacyGetResponseResolve none none ≠
      (claimedResolve none none envProcessOnly.DEFAULT_TEMPERATURE (7 / 10),
       claimedResolve none none envProcessOnly.DEFAULT_MAX_TOKENS 500) := by
  have e1 : openAIEffective envProcessOnly none none none none = (9 / 10, 500) := by
    simp [openAIEffective, openAIProviderDefaults, chatProviderDefaults, getResponseResolve,
      envProcessOnly]
  have e2 : legacyGetResponseResolve none none = ((7 : ℚ) / 10, 500) := by
    simp [legacyGetResponseResolve]
  have e3 : (claimedResolve none none envProcessOnly.DEFAULT_TEMPERATURE (7 / 10),
      claimedResolve none none envProcessOnly.DEFAULT_MAX_TOKENS 500) = ((9 : ℚ) / 10, 500) := by
    simp [claimedResolve, envProcessOnly]
  constructor
  · rw [e1, e2]
    intro h
    simp only [Prod.mk.injEq] at h
    exact absurd h.1 (by norm_num)
  · rw [e2, e3]
    intro h
    simp only [Prod.mk.injEq] at h
    exact absurd h.1 (by norm_num)

/-- C7 (amended): the five adapters of providers.py all resolve the
effective temperature and max-tokens by the same precedence — explicit
per-call argument, else constructor argument, else the adapter-specific
environment variable, else the process-wide default, else the hardcoded
`0.7` / `500` — while the legacy adapters defined in
chatbot_conversation.py resolve only per-call argument else hardcoded
fallback, ignoring all configuration. -/
theorem adapter_precedence (env : EnvConfig) (ctorT : Option ℚ) (ctorM : Option Nat)
    (callT : Option ℚ) (callM : Option Nat) :
    openAIEffective env ctorT ctorM callT callM =
      (claimedResolve callT (ctorT <|> env.OPENAI_TEMPERATURE) env.DEFAULT_TEMPERATURE (7 / 10),
       claimedResolve callM (ctorM <|> env.OPENAI_MAX_TOKENS) env.DEFAULT_MAX_TOKENS 500) ∧
    anthropicEffective env ctorT ctorM callT callM =
      (claimedResolve callT (ctorT <|> env.ANTHROPIC_TEMPERATURE) env.DEFAULT_TEMPERATURE (7 / 10),
       claimedResolve callM (ctorM <|> env.ANTHROPIC_MAX_TOKENS) env.DEFAULT_MAX_TOKENS 500) ∧
    ollamaEffective env ctorT ctorM callT callM =
      (claimedResolve callT (ctorT <|> env.OLLAMA_TEMPERATURE) env.DEFAULT_TEMPERATURE (7 / 10),
       claimedResolve callM (ctorM <|> env.OLLAMA_MAX_TOKENS) env.DEFAULT_MAX_TOKENS 500) ∧
    xaiGrokEffective env ctorT ctorM callT callM =
      (claimedResolve callT (ctorT <|> env.XAI_TEMPERATURE) env.DEFAULT_TEMPERATURE (7 / 10),
       claimedResolve callM (ctorM <|> env.XAI_MAX_TOKENS) env.DEFAULT_MAX_TOKENS 500) ∧
    googleEffective env ctorT ctorM callT callM =
      (claimedResolve callT (ctorT <|> env.GEMINI_TEMPERATURE) env.DEFAULT_TEMPERATURE (7 / 10),
       claimedResolve callM (ctorM <|> env.GEMINI_MAX_TOKENS) env.DEFAULT_MAX_TOKENS 500) ∧
    legacyGetResponseResolve callT callM =
      (claimedResolve callT none none (7 / 10), claimedResolve callM none none 500) := by
  cases ctorT <;> cases ctorM <;> cases callT <;> cases callM <;>
    simp [openAIEffective, anthropicEffective, ollamaEffective, xaiGrokEffective,
      googleEffective, openAIProviderDefaults, anthropicProviderDefaults,
      ollamaProviderDefaults, xaiGrokProviderDefaults, googleProviderDefaults,
      chatProviderDefaults, getResponseResolve, legacyGetResponseResolve, claimedResolve]

/-! ### C8: the persisted transcript format -/

theorem foldl_formatEntry : ∀ (history : List TurnRecord) (acc : String),
    history.foldl (fun a e => a ++ formatEntry e) acc =
      acc ++ concatBlocks (history.map formatEntry)
  | [], acc => by
      rw [List.foldl_nil, List.map_nil]
      exact (String.append_empty acc).symm
  | e :: history, acc => by
      rw [List.map_cons, List.foldl_cons, foldl_formatEntry history (acc ++ formatEntry e)]
      show acc ++ formatEntry e ++ concatBlocks (history.map formatEntry) =
        acc ++ (formatEntry e ++ concatBlocks (history.map formatEntry))
      rw [String.append_assoc]

/-- C8 (amended): `save_conversation` writes, in one shot, exactly one block
per retained record, in strict insertion order; each block is a blank line,
a separator line, the `{speaker} - Turn {turn}` header, a separator line,
and the record's message. -/
theorem save_conversation_in_order (history : List TurnRecord) :
    save_conversation_content history = concatBlocks (history.map formatEntry) := by
  rw [save_conversation_content, foldl_formatEntry, String.empty_append]

theorem secondLast_append (a b : String) (h : 2 ≤ b.length) :
    secondLast (a ++ b) = secondLast b := by
  unfold secondLast
  rw [String.data_append, List.reverse_append]
  have hb : 1 < b.data.reverse.length := by
    rw [List.length_reverse, String.length_data]
    omega
  rw [List.getElem?_append_left hb]

set_option maxRecDepth 4000 in
/-- C8 counterexample: on the one-record history `[⟨0, "S", "x"⟩]` the file
content produced by `save_conversation` does not have the claimed
"speaker-marker plus speaker-name header followed by the content" layout for
any choice of speaker markers: the code's block ends `"x\n"` (message, one
newline) while any claimed block ends with the blank separator `"\n\n"`. -/
theorem save_conversation_marker_counterexample :
    ¬ ∃ markerOf : String → String,
      save_conversation_content [⟨0, "S", "x"⟩] = claimedContent markerOf [⟨0, "S", "x"⟩] := by
  rintro ⟨markerOf, h⟩
  have hC : claimedContent markerOf [⟨0, "S", "x"⟩] =
      markerOf "S" ++ (" " ++ "S" ++ "\n" ++ "x" ++ "\n\n") := by
    show claimedEntry markerOf ⟨0, "S", "x"⟩ ++ "" = _
    rw [String.append_empty]
    rfl
  have h2 : secondLast (save_conversation_content [⟨0, "S", "x"⟩]) =
      secondLast (markerOf "S" ++ (" " ++ "S" ++ "\n" ++ "x" ++ "\n\n")) := by
    rw [← hC, h]
  rw [secondLast_append _ _ (by decide)] at h2
  revert h2
  decide

end Chatbot
